import Mathlib

/-
Verification development for the CrimeSync dashboard (src/app.py).

The app is a single-page Streamlit dashboard over a SQLite database
`crime_data.db`.  The embedding below models:

  * the query-execution core: `run_query` (src/app.py:39-41), a function
    decorated with `@st.cache_data`, i.e. memoised on its exact string
    argument, which forwards the SQL text unchanged to the engine
    (`pd.read_sql_query(sql, conn)`);
  * its three call sites: the table-list viewer (src/app.py:90-92,
    unguarded), the predefined-query runner (src/app.py:178-183,
    wrapped in try/except), and the custom-query form (src/app.py:194-200,
    wrapped in try/except);
  * the connection lifecycle: `get_connection` (src/app.py:33-37),
    decorated with `@st.cache_resource`, i.e. opened once per process and
    never closed;
  * the fixed catalog `query_options` (src/app.py:99-173) and the table
    description selector (src/app.py:46-85);
  * chart derivation (`numericColumns`, `buildChartRequest`), which has no
    code under src/ and is modelled from the spec where noted.

The relational engine itself (SQLite + pandas) is external; it is modelled
as an oracle `Engine : String -> Except String Table`.
-/

set_option autoImplicit false

namespace CrimeSync

/-- A scalar cell value of a query result: SQL text, a number, or null.
SQL integer and real values are both represented by `num`, since the
modelled operations only ever distinguish numeric-or-null cells from text
cells. -/
inductive Cell where
  | null : Cell
  | num : Int → Cell
  | text : String → Cell
  deriving DecidableEq

/-- A query result as the spec's Table: an ordered list of column names and
an ordered list of rows, each row positionally aligned to the columns. -/
structure Table where
  cols : List String
  rows : List (List Cell)
  deriving DecidableEq

/-- The external relational engine, an oracle from SQL text to either a
result table or a diagnostic message (a raised exception in the Python
source). -/
def Engine : Type := String → Except String Table

/-- The `@st.cache_data` memoisation cache attached to `run_query`
(src/app.py:39): entries are keyed by the exact query text.  Only
successful results are cached (a raised exception is not memoised by
`st.cache_data`). -/
structure Cache where
  entries : List (String × Table)
  deriving DecidableEq

/-- `run_query` (src/app.py:39-41): `@st.cache_data` memoised; on a cache
miss it evaluates `pd.read_sql_query(sql, conn)`, i.e. hands the string
`sql` itself to the engine; an engine fault propagates to the caller and
leaves the cache unchanged. -/
def run_query (engine : Engine) (cache : Cache) (sql : String) :
    Except String Table × Cache :=
  match cache.entries.lookup sql with
  | some t => (Except.ok t, cache)
  | none =>
    match engine sql with
    | Except.ok t => (Except.ok t, ⟨(sql, t) :: cache.entries⟩)
    | Except.error msg => (Except.error msg, cache)

/-- What a call site of `run_query` delivers: a rendered table, a caught
and displayed error (`st.error` inside an `except` block), or an exception
escaping unhandled. -/
inductive Outcome where
  | table : Table → Outcome
  | queryError : String → Outcome
  | unhandled : String → Outcome
  deriving DecidableEq

/-- Whether an outcome is an exception escaping the call site unhandled. -/
def Outcome.isUnhandled : Outcome → Bool
  | Outcome.unhandled _ => true
  | _ => false

/-- The fixed SQL text of the table-list viewer (src/app.py:91). -/
def tablesQuerySql : String :=
  "SELECT name FROM sqlite_master WHERE type=\x27table\x27;"

/-- The table-list viewer call site (src/app.py:90-92):
`tables_df = run_query("SELECT name FROM sqlite_master WHERE type='table';")`
with no surrounding try/except, so an engine fault escapes unhandled. -/
def tablesViewer (engine : Engine) (cache : Cache) : Outcome × Cache :=
  match run_query engine cache tablesQuerySql with
  | (Except.ok t, c) => (Outcome.table t, c)
  | (Except.error msg, c) => (Outcome.unhandled msg, c)

/-- A Named Query of the catalog: an immutable (SQL text, description)
pair, keyed by its label in `query_options`. -/
structure NamedQuery where
  query : String
  description : String
  deriving DecidableEq

/-- `query_options` (src/app.py:99-173): the fixed catalog of five
predefined expert queries, in source (insertion) order, transcribed
verbatim from the source (string apostrophes written as \x27). -/
def query_options : List (String × NamedQuery) :=
  [ ("Top 10 Crime Types in 2023",
     { query := "\nSELECT ct.Crm_Cd_Desc AS Crime_Type, COUNT(*) AS Total_Incidents\nFROM crime_data cd\nJOIN crime_type ct ON cd.Crm_Cd = ct.Crm_Cd\nWHERE substr(cd.DATE_OCC, 1, 4) = \x272023\x27\nGROUP BY ct.Crm_Cd_Desc\nORDER BY Total_Incidents DESC\nLIMIT 10;\n",
       description := "Shows the most frequently reported crime types in the year 2023." }),
    ("Top 5 Areas with Most Violent Crimes (2023)",
     { query := "\nSELECT \n    cd.AREA_NAME,\n    COUNT(*) AS Total_Violent_Crimes,\n    ROUND(AVG(cd.Vict_Age), 1) AS Avg_Victim_Age\nFROM crime_data cd\nJOIN crime_type ct ON cd.Crm_Cd = ct.Crm_Cd\nWHERE substr(cd.DATE_OCC, 1, 4) = \x272023\x27\n  AND ct.Crm_Cd_Desc LIKE \x27%ASSAULT%\x27\nGROUP BY cd.AREA_NAME\nORDER BY Total_Violent_Crimes DESC\nLIMIT 5;\n",
       description := "Top 5 areas with the most assault-related crimes in 2023 with victim age averages." }),
    ("Weapon Use by Area (Top 5 Areas, 2022–2023)",
     { query := "\nWITH TopAreas AS (\n    SELECT AREA\n    FROM crime_data\n    WHERE Weapon_Used_Cd IS NOT NULL\n      AND substr(DATE_OCC, 1, 4) IN (\x272022\x27, \x272023\x27)\n    GROUP BY AREA\n    ORDER BY COUNT(*) DESC\n    LIMIT 5\n)\nSELECT \n    cd.AREA_NAME,\n    w.Weapon_Desc,\n    COUNT(*) AS Weapon_Incidents\nFROM crime_data cd\nJOIN weapon w ON cd.Weapon_Used_Cd = w.Weapon_Used_Cd\nWHERE cd.Weapon_Used_Cd IS NOT NULL\n  AND substr(cd.DATE_OCC, 1, 4) IN (\x272022\x27, \x272023\x27)\n  AND cd.AREA IN (SELECT AREA FROM TopAreas)\nGROUP BY cd.AREA_NAME, w.Weapon_Desc\nORDER BY cd.AREA_NAME, Weapon_Incidents DESC;\n",
       description := "Weapon use breakdown across top 5 crime-heavy areas for 2022–2023." }),
    ("Crime Count by Gender in 2023",
     { query := "\nSELECT Vict_Sex, COUNT(*) AS Total_Reports\nFROM crime_data\nWHERE substr(DATE_OCC, 1, 4) = \x272023\x27\nGROUP BY Vict_Sex;\n",
       description := "Shows how crime reports in 2023 break down by victim gender." }),
    ("Most Dangerous Times of Day (2023)",
     { query := "\nSELECT TIME_OCC / 100 AS Hour_Block, COUNT(*) AS Reports\nFROM crime_data\nWHERE substr(DATE_OCC, 1, 4) = \x272023\x27\nGROUP BY Hour_Block\nORDER BY Reports DESC\nLIMIT 10;\n",
       description := "Identifies hours of the day with highest crime activity in 2023." }) ]

/-- The predefined-query call site (src/app.py:178-183): the body of the
`if st.button(...)` block, which looks up the selected label, runs its SQL
through `run_query` inside try/except, and converts any fault into a
displayed error.  The label always comes from the selectbox over
`query_options` keys; a label outside the catalog would raise KeyError
inside the same try block and likewise be caught. -/
def runSelectedQuery (engine : Engine) (cache : Cache) (label : String) :
    Outcome × Cache :=
  match query_options.lookup label with
  | some nq =>
    match run_query engine cache nq.query with
    | (Except.ok t, c) => (Outcome.table t, c)
    | (Except.error msg, c) => (Outcome.queryError msg, c)
  | none => (Outcome.queryError "KeyError", cache)

/-- The custom-SQL call site (src/app.py:194-200): the form-submitted
string is passed to `run_query` inside try/except; a fault becomes a
displayed error. -/
def runCustomQuery (engine : Engine) (cache : Cache) (q : String) :
    Outcome × Cache :=
  match run_query engine cache q with
  | (Except.ok t, c) => (Outcome.table t, c)
  | (Except.error msg, c) => (Outcome.queryError msg, c)

/-- The selectbox options of the table-description expander
(src/app.py:47-49). -/
def table_selector_options : List String :=
  ["crime_type", "location", "weapon", "crime_data"]

/-- `table_descriptions` (src/app.py:51-84): the markdown description
shown for each table, keyed by table name, transcribed from the source
(in source order). -/
def table_descriptions : List (String × String) :=
  [ ("crime_type",
     "\n**`crime_type`**\n\n- `Crm_Cd` (NUMERIC): Unique crime code  \n- `Crm_Cd_Desc` (VARCHAR): Description of the crime\n"),
    ("location",
     "\n**`location`**\n\n- `Premis_Cd` (NUMERIC): Location type code  \n- `Premis_Desc` (VARCHAR): Location description (e.g., Street, Residence)\n"),
    ("weapon",
     "\n**`weapon`**\n\n- `Weapon_Used_Cd` (NUMERIC): Weapon type code  \n- `Weapon_Desc` (VARCHAR): Weapon description\n"),
    ("crime_data",
     "\n**`crime_data`**\n\n- `DR_NO`: Report ID  \n- `Date_Rptd`, `DATE_OCC`: Date reported / occurred  \n- `TIME_OCC`: Time of occurrence (24h)  \n- `AREA`, `AREA_NAME`: Crime area code / name  \n- `Crm_Cd`: Crime type (FK to `crime_type`)  \n- `Vict_Age`, `Vict_Sex`: Victim age / sex  \n- `Premis_Cd`: Location type (FK to `location`)  \n- `Weapon_Used_Cd`: Weapon used (FK to `weapon`)  \n- `Status`: Report status  \n- `LOCATION`, `LAT`, `LON`: Address and coordinates\n") ]

/-- The on-disk state the connection collaborator sees: which paths hold an
existing database file (with the names of the tables inside it), and which
paths cannot be opened or created at all. -/
structure FileSystem where
  dbs : List (String × List String)
  unreadable : List String
  deriving DecidableEq

/-- A connection handle; it exposes the set of table names present in the
database it is connected to. -/
structure Conn where
  tables : List String
  deriving DecidableEq

/-- Models the `sqlite3.connect` collaborator called at src/app.py:35.
Per the documented semantics of Python's sqlite3 module, connecting to an
existing database file yields a handle onto it; connecting to a missing
but creatable path silently creates a fresh empty database file and yields
a usable handle onto it; connect fails only when the path cannot be opened
or created (e.g. an unreadable file or directory). -/
def sqlite3_connect (fs : FileSystem) (path : String) :
    Except String (Conn × FileSystem) :=
  if fs.unreadable.contains path then
    Except.error "unable to open database file"
  else
    match fs.dbs.lookup path with
    | some ts => Except.ok (⟨ts⟩, fs)
    | none => Except.ok (⟨[]⟩, ⟨(path, []) :: fs.dbs, fs.unreadable⟩)

/-- `get_connection` (src/app.py:33-35): connects to the fixed path
`"crime_data.db"`. -/
def get_connection (fs : FileSystem) : Except String (Conn × FileSystem) :=
  sqlite3_connect fs "crime_data.db"

/-- Models the engine's resolution of a table reference on a handle: a
query naming a table that is absent from the connected database fails with
the engine's no-such-table diagnostic. -/
def tableQueryOutcome (c : Conn) (t : String) : Except String Unit :=
  if c.tables.contains t then Except.ok ()
  else Except.error ("no such table: " ++ t)

/-- Process-lifetime state of the connection resource: the
`@st.cache_resource` slot holding the cached handle id (src/app.py:33),
a counter of fresh handle ids, and counts of open/close operations
performed on the underlying store. -/
structure ProcState where
  connCache : Option Nat
  nextId : Nat
  openCount : Nat
  closeCount : Nat
  deriving DecidableEq

/-- The state at process start: nothing cached, nothing opened. -/
def initState : ProcState := ⟨none, 0, 0, 0⟩

/-- One call of `get_connection()` under `@st.cache_resource`
(src/app.py:33-37): if a handle is cached it is returned as is; otherwise
`sqlite3.connect` opens a fresh handle, which is cached and returned.  No
branch ever closes a handle. -/
def get_connection_step (ps : ProcState) : Nat × ProcState :=
  match ps.connCache with
  | some c => (c, ps)
  | none =>
    (ps.nextId,
     { connCache := some ps.nextId
       nextId := ps.nextId + 1
       openCount := ps.openCount + 1
       closeCount := ps.closeCount })

/-- The operations the script performs against the connection resource:
the `conn = get_connection()` line executed on each rerun, and a
`run_query` call, which only borrows the shared handle — it performs no
open and no close (src/app.py:39-41 contains no `close()` call, and
neither does any other line of src/app.py). -/
inductive Op where
  | openConn : Op
  | query : String → Op

/-- Effect of one operation on the process state. -/
def execOp (ps : ProcState) : Op → ProcState
  | Op.openConn => (get_connection_step ps).2
  | Op.query _ => ps

/-- Whether a cell is representable as a number or is null (as opposed to
text). -/
def Cell.isNumOrNull : Cell → Bool
  | Cell.text _ => false
  | _ => true

/-- Modelled from the spec: `numericColumns` has no code under src/ (no
chart code appears in src/app.py; the spec attributes it to the chart
revisions of the repository).  Per the spec, it returns the subset of
column names whose cell values are all representable as numbers (or null)
across every row, and an empty table yields the empty set.  Columns are
checked positionally; a row shorter than the column list reads as null in
the missing positions. -/
def numericColumns (t : Table) : List String :=
  if t.rows.isEmpty then []
  else
    ((List.range t.cols.length).filter
      (fun i => t.rows.all (fun r => (r.getD i Cell.null).isNumOrNull))).map
      (fun i => t.cols.getD i "")

/-- A validated, renderer-ready chart description (spec §4.2). -/
structure ChartSpec where
  xCol : String
  yCol : String
  kind : String
  title : String
  deriving DecidableEq

/-- Whether a chart-kind string is one of the recognized kinds. -/
def validKind (k : String) : Bool :=
  k == "scatter" || k == "bar" || k == "line"

/-- Modelled from the spec: `buildChartRequest` has no code under src/ (no
chart code appears in src/app.py).  Per the spec, it checks that both
chosen columns are members of `numericColumns(table)` and that the kind is
one of scatter/bar/line before any rendering is delegated, returning a
ChartError otherwise; on success it returns a ChartSpec whose title is
"{yCol} vs {xCol}" for scatter, "{yCol} by {xCol}" for bar and
"{yCol} over {xCol}" for line. -/
def buildChartRequest (t : Table) (xCol yCol kind : String) :
    Except String ChartSpec :=
  if (numericColumns t).contains xCol = false then
    Except.error ("column not numeric: " ++ xCol)
  else if (numericColumns t).contains yCol = false then
    Except.error ("column not numeric: " ++ yCol)
  else if kind == "scatter" then
    Except.ok ⟨xCol, yCol, kind, yCol ++ " vs " ++ xCol⟩
  else if kind == "bar" then
    Except.ok ⟨xCol, yCol, kind, yCol ++ " by " ++ xCol⟩
  else if kind == "line" then
    Except.ok ⟨xCol, yCol, kind, yCol ++ " over " ++ xCol⟩
  else
    Except.error ("unrecognized chart kind: " ++ kind)

/-- Whether a chart request was rejected. -/
def chartReqIsError (r : Except String ChartSpec) : Bool :=
  match r with
  | Except.error _ => true
  | Except.ok _ => false

/-- An engine that fails every query, e.g. a locked or corrupted database
file. -/
def failingEngine : Engine := fun _ => Except.error "database is locked"

/-- An engine that answers every query with a fixed one-cell table. -/
def engineA : Engine :=
  fun _ => Except.ok ⟨["n"], [[Cell.num 1]]⟩

/-- An engine answering with a different table than `engineA`, standing
for the same database after its contents changed. -/
def engineB : Engine :=
  fun _ => Except.ok ⟨["n"], [[Cell.num 2]]⟩

/-- The empty memoisation cache, as at process start. -/
def emptyCache : Cache := ⟨[]⟩

/-- The cache after `engineA` answered the query `"q"` once from the empty
cache. -/
def cacheA : Cache := ⟨[("q", ⟨["n"], [[Cell.num 1]]⟩)]⟩

/-- A sequence of further `run_query` calls in the same process, applied
to the shared `st.cache_data` cache in order: each element pairs the
engine state at that moment (the database contents may change between
calls) with the SQL string of the call. -/
def runQueries (c : Cache) : List (Engine × String) → Cache
  | [] => c
  | (e, s) :: rest => runQueries (run_query e c s).2 rest

/-- A sample result table with one numeric and one text column. -/
def sampleTable : Table := ⟨["a", "b"], [[Cell.num 1, Cell.text "x"]]⟩

/-- A sample result table with a declared column but zero rows. -/
def chartSampleTable : Table := ⟨["a"], []⟩

theorem run_query_ok_lookup {e : Engine} {c : Cache} {q : String}
    {t : Table} {c' : Cache} (h : run_query e c q = (Except.ok t, c')) :
    c'.entries.lookup q = some t := by
  unfold run_query at h
  cases hl : c.entries.lookup q with
  | some t0 =>
    rw [hl] at h
    injection h with h1 h2
    injection h1 with h3
    subst h3; subst h2
    exact hl
  | none =>
    rw [hl] at h
    cases he : e q with
    | ok t0 =>
      rw [he] at h
      injection h with h1 h2
      injection h1 with h3
      subst h3; subst h2
      simp [List.lookup]
    | error msg =>
      rw [he] at h
      injection h with h1 h2
      exact absurd h1 (by simp)

/-- Claim C3: `run_query` forwards its input string verbatim to the
engine: on a cache miss, the pair's result component is exactly the
engine's verdict on the unmodified string `q` — no validation,
sanitization, rewriting or statement-type restriction intervenes between
the caller's string and the engine call. -/
theorem run_query_forwards_verbatim (e : Engine) (c : Cache) (q : String)
    (h : c.entries.lookup q = none) : (run_query e c q).1 = e q := by
  unfold run_query
  rw [h]
  cases he : e q <;> simp

/-- Witness for C3 at the concrete query string of src/app.py:191 and the
empty cache. -/
theorem run_query_forwards_verbatim_witness :
    emptyCache.entries.lookup "SELECT * FROM crime_data LIMIT 10;" = none ∧
    (run_query engineA emptyCache "SELECT * FROM crime_data LIMIT 10;").1 =
      engineA "SELECT * FROM crime_data LIMIT 10;" :=
  ⟨rfl, run_query_forwards_verbatim engineA emptyCache
    "SELECT * FROM crime_data LIMIT 10;" rfl⟩

/-- Claim C4: two consecutive executions of the same query text against an
unmodified dataset (the same engine) return Tables with identical column
names, identical row count and identical cell values. -/
theorem run_query_idempotent (e : Engine) (c : Cache) (q : String)
    (t1 t2 : Table) (c1 c2 : Cache)
    (h1 : run_query e c q = (Except.ok t1, c1))
    (h2 : run_query e c1 q = (Except.ok t2, c2)) :
    t2.cols = t1.cols ∧ t2.rows.length = t1.rows.length ∧
      t2.rows = t1.rows := by
  have hl := run_query_ok_lookup h1
  unfold run_query at h2
  rw [hl] at h2
  injection h2 with h3 h4
  injection h3 with h5
  subst h5
  exact ⟨rfl, rfl, rfl⟩

/-- Witness for C4: running `"q"` twice on `engineA` from the empty
cache. -/
theorem run_query_idempotent_witness :
    run_query engineA emptyCache "q" =
      (Except.ok ⟨["n"], [[Cell.num 1]]⟩, cacheA) ∧
    run_query engineA cacheA "q" =
      (Except.ok ⟨["n"], [[Cell.num 1]]⟩, cacheA) ∧
    (⟨["n"], [[Cell.num 1]]⟩ : Table).cols =
      (⟨["n"], [[Cell.num 1]]⟩ : Table).cols :=
  ⟨rfl, rfl,
    (run_query_idempotent engineA emptyCache "q" _ _ cacheA cacheA
      rfl rfl).1⟩

theorem run_query_preserves_lookup (e : Engine) (c : Cache) (q s : String)
    (t : Table) (h : c.entries.lookup s = some t) :
    ((run_query e c q).2).entries.lookup s = some t := by
  unfold run_query
  cases hl : c.entries.lookup q with
  | some t0 => exact h
  | none =>
    cases he : e q with
    | error msg => exact h
    | ok t0 =>
      by_cases hqs : s = q
      · subst hqs
        rw [h] at hl
        exact absurd hl (by simp)
      · have hbeq : (s == q) = false := beq_eq_false_iff_ne.2 hqs
        simp [List.lookup, hbeq, h]

theorem runQueries_preserves_lookup (ops : List (Engine × String))
    (c : Cache) (s : String) (t : Table)
    (h : c.entries.lookup s = some t) :
    (runQueries c ops).entries.lookup s = some t := by
  induction ops generalizing c with
  | nil => exact h
  | cons op rest ih =>
    cases op with
    | mk e q =>
      exact ih (run_query e c q).2 (run_query_preserves_lookup e c q s t h)

/-- Claim C9: once `run_query` has returned a result for a SQL string in a
process, every later `run_query` call on the same string — after any
number of intervening `run_query` calls on arbitrary strings, each
possibly seeing changed database contents — returns the very same result,
even if the engine's data changed in between: the `st.cache_data` cache is
keyed by exact query text and is never invalidated by data changes. -/
theorem run_query_cache_never_invalidated (e1 e2 : Engine)
    (ops : List (Engine × String)) (c : Cache)
    (q : String) (t : Table) (c' : Cache)
    (h : run_query e1 c q = (Except.ok t, c')) :
    run_query e2 (runQueries c' ops) q =
      (Except.ok t, runQueries c' ops) := by
  have hl := runQueries_preserves_lookup ops c' q t (run_query_ok_lookup h)
  unfold run_query
  rw [hl]

/-- Witness for C9: after `engineA` answered `"q"`, an intervening call on
a different string (the table-list query, against the changed engine
`engineB`) happens; the later call on `"q"` still returns the first
answer, never consulting `engineB` for it. -/
theorem run_query_cache_never_invalidated_witness :
    run_query engineA emptyCache "q" =
      (Except.ok ⟨["n"], [[Cell.num 1]]⟩, cacheA) ∧
    run_query engineB (runQueries cacheA [(engineB, tablesQuerySql)]) "q" =
      (Except.ok ⟨["n"], [[Cell.num 1]]⟩,
       runQueries cacheA [(engineB, tablesQuerySql)]) :=
  ⟨rfl, run_query_cache_never_invalidated engineA engineB
    [(engineB, tablesQuerySql)] emptyCache "q"
    ⟨["n"], [[Cell.num 1]]⟩ cacheA rfl⟩

/-- Counterexample to claim C1 as stated: the table-list viewer call site
(src/app.py:91) has no error boundary, so when the engine faults on its
query (e.g. a locked database file) the exception escapes the call site
unhandled instead of becoming a QueryError. -/
theorem tablesViewer_unhandled_fault :
    (tablesViewer failingEngine emptyCache).1 =
      Outcome.unhandled "database is locked" := rfl

/-- Claim C1 (amended): the two call sites that execute user-submitted SQL
— the predefined-query runner (src/app.py:178-183) and the custom-query
form (src/app.py:194-200) — always deliver either a Table or a QueryError
to their caller; an engine fault never escapes them unhandled.  The
table-list viewer call site (src/app.py:91) is excluded: it runs a fixed
internal query with no error boundary. -/
theorem guarded_call_sites_never_unhandled (e : Engine) (c : Cache)
    (q lbl : String) :
    (runCustomQuery e c q).1.isUnhandled = false ∧
    (runSelectedQuery e c lbl).1.isUnhandled = false := by
  constructor
  · unfold runCustomQuery
    cases h : run_query e c q with
    | mk fst snd => cases fst <;> simp [h, Outcome.isUnhandled]
  · unfold runSelectedQuery
    cases hl : query_options.lookup lbl with
    | none => simp [Outcome.isUnhandled]
    | some nq =>
      cases h : run_query e c nq.query with
      | mk fst snd => cases fst <;> simp [h, Outcome.isUnhandled]

/-- Counterexample to claim C2 as stated: on a filesystem where
`crime_data.db` does not exist (and the path is creatable),
`get_connection` does not fail — per sqlite3 semantics it creates an empty
database file and returns a usable handle onto it. -/
theorem get_connection_missing_file_succeeds :
    get_connection ⟨[], []⟩ =
      Except.ok (⟨[]⟩, ⟨[("crime_data.db", [])], []⟩) := rfl

/-- Claim C2 (amended): when the dataset file is missing but the path is
creatable, `get_connection` succeeds, silently creating an empty database;
the handle carries no tables, so any query touching the expected dataset
tables fails at query time with the engine's no-such-table diagnostic
rather than at connection-open time.  Open fails only for an unopenable
path. -/
theorem get_connection_missing_file (fs : FileSystem)
    (h1 : fs.unreadable.contains "crime_data.db" = false)
    (h2 : fs.dbs.lookup "crime_data.db" = none) :
    get_connection fs =
      Except.ok (⟨[]⟩, ⟨("crime_data.db", []) :: fs.dbs, fs.unreadable⟩) ∧
    tableQueryOutcome ⟨[]⟩ "crime_data" =
      Except.error "no such table: crime_data" := by
  constructor
  · unfold get_connection sqlite3_connect
    rw [h1, h2]
    simp
  · rfl

/-- Witness for C2 (amended) at the empty filesystem. -/
theorem get_connection_missing_file_witness :
    ((⟨[], []⟩ : FileSystem).unreadable.contains "crime_data.db" = false) ∧
    ((⟨[], []⟩ : FileSystem).dbs.lookup "crime_data.db" = none) ∧
    (get_connection ⟨[], []⟩ =
       Except.ok (⟨[]⟩, ⟨[("crime_data.db", [])], []⟩) ∧
     tableQueryOutcome ⟨[]⟩ "crime_data" =
       Except.error "no such table: crime_data") :=
  ⟨rfl, rfl, get_connection_missing_file ⟨[], []⟩ rfl rfl⟩

set_option maxRecDepth 8192 in
/-- Claim C5: `query_options` (src/app.py:99-173) is a fixed catalog of
exactly 5 named-query entries in a stable order (the source insertion
order listed here), each an immutable (label, SQL text, description)
triple defined at startup, with pairwise distinct labels so that every
entry is addressable by its label for execution. -/
theorem query_options_catalog :
    query_options.length = 5 ∧
    query_options.map Prod.fst =
      ["Top 10 Crime Types in 2023",
       "Top 5 Areas with Most Violent Crimes (2023)",
       "Weapon Use by Area (Top 5 Areas, 2022–2023)",
       "Crime Count by Gender in 2023",
       "Most Dangerous Times of Day (2023)"] ∧
    (query_options.map Prod.fst).Nodup ∧
    query_options.all
      (fun p => query_options.lookup p.1 == some p.2) = true :=
  ⟨rfl, rfl, by decide, rfl⟩

/-- Claim C10: every option offered by the table-description selector
(src/app.py:47-49) is a key of `table_descriptions` (src/app.py:51-84),
so the lookup `table_descriptions[selected_table]` succeeds for every
possible selection. -/
theorem table_descriptions_total :
    table_selector_options.all
      (fun o => (table_descriptions.lookup o).isSome) = true := rfl

theorem execOp_preserves (ps : ProcState) (op : Op)
    (h : ps.closeCount = 0 ∧
      ps.openCount = (if ps.connCache.isSome then 1 else 0)) :
    (execOp ps op).closeCount = 0 ∧
      (execOp ps op).openCount =
        (if (execOp ps op).connCache.isSome then 1 else 0) := by
  cases op with
  | query s => exact h
  | openConn =>
    cases hc : ps.connCache with
    | some c =>
      simpa [execOp, get_connection_step, hc] using h
    | none =>
      obtain ⟨h1, h2⟩ := h
      rw [hc] at h2
      simp only [Option.isSome_none, Bool.false_eq_true, if_false] at h2
      simp [execOp, get_connection_step, hc, h1, h2]

theorem foldl_execOp_preserves (ops : List Op) (ps : ProcState)
    (h : ps.closeCount = 0 ∧
      ps.openCount = (if ps.connCache.isSome then 1 else 0)) :
    (ops.foldl execOp ps).closeCount = 0 ∧
      (ops.foldl execOp ps).openCount =
        (if (ops.foldl execOp ps).connCache.isSome then 1 else 0) := by
  induction ops generalizing ps with
  | nil => exact h
  | cons op rest ih => exact ih (execOp ps op) (execOp_preserves ps op h)

/-- Claim C6: over any sequence of connection-borrowing operations from
process start, at most one underlying open is ever performed and no close
is ever performed; moreover calling `get_connection` again after any call
returns the very same cached handle and leaves the state untouched. -/
theorem connection_opened_once_never_closed :
    (∀ ops : List Op,
      (ops.foldl execOp initState).openCount ≤ 1 ∧
      (ops.foldl execOp initState).closeCount = 0) ∧
    (∀ ps : ProcState,
      get_connection_step ((get_connection_step ps).2) =
        ((get_connection_step ps).1, (get_connection_step ps).2)) := by
  constructor
  · intro ops
    have h := foldl_execOp_preserves ops initState ⟨rfl, rfl⟩
    refine ⟨?_, h.1⟩
    rw [h.2]
    cases (ops.foldl execOp initState).connCache.isSome <;> simp
  · intro ps
    cases hc : ps.connCache with
    | some c => simp [get_connection_step, hc]
    | none => simp [get_connection_step, hc]

/-- Claim C7 (spec-modelled): `numericColumns` on any zero-row table
returns the empty set regardless of the declared column names, and on any
table it contains a column name exactly when the table is non-empty and
that column's cell values are all representable as numbers (or null)
across every row.  Column names are assumed pairwise distinct, as produced
by the engine. -/
theorem numericColumns_spec (t : Table) (i : Nat)
    (hnd : t.cols.Nodup) (hi : i < t.cols.length) :
    (t.rows = [] → numericColumns t = []) ∧
    (t.cols.getD i "" ∈ numericColumns t ↔
      (t.rows ≠ [] ∧
       t.rows.all (fun r => (r.getD i Cell.null).isNumOrNull) = true)) := by
  constructor
  · intro h
    simp [numericColumns, h]
  · by_cases hr : t.rows = []
    · simp [numericColumns, hr]
    · have hne : t.rows.isEmpty = false := by
        cases hrows : t.rows with
        | nil => exact absurd hrows hr
        | cons a l => rfl
      simp only [numericColumns, hne, Bool.false_eq_true, if_false]
      constructor
      · intro hm
        rw [List.mem_map] at hm
        obtain ⟨j, hj, hEq⟩ := hm
        rw [List.mem_filter] at hj
        obtain ⟨hjr, hp⟩ := hj
        rw [List.mem_range] at hjr
        have hgj : t.cols.getD j "" = t.cols[j] :=
          List.getD_eq_getElem t.cols "" hjr
        have hgi : t.cols.getD i "" = t.cols[i] :=
          List.getD_eq_getElem t.cols "" hi
        have hj_i : j = i := by
          apply (@List.Nodup.getElem_inj_iff String t.cols hnd j hjr i hi).1
          rw [← hgj, ← hgi]
          exact hEq
        subst hj_i
        exact ⟨hr, hp⟩
      · rintro ⟨-, hall⟩
        rw [List.mem_map]
        refine ⟨i, ?_, rfl⟩
        rw [List.mem_filter]
        exact ⟨List.mem_range.2 hi, hall⟩

/-- Witness for C7 at a concrete two-column table whose first column is
numeric and second is text. -/
theorem numericColumns_spec_witness :
    (sampleTable.cols.Nodup ∧ 0 < sampleTable.cols.length) ∧
    ((sampleTable.rows = [] → numericColumns sampleTable = []) ∧
     (sampleTable.cols.getD 0 "" ∈ numericColumns sampleTable ↔
       (sampleTable.rows ≠ [] ∧
        sampleTable.rows.all
          (fun r => (r.getD 0 Cell.null).isNumOrNull) = true))) :=
  ⟨⟨by decide, by decide⟩,
    numericColumns_spec sampleTable 0 (by decide) (by decide)⟩

/-- Claim C8 (spec-modelled): for every table, chart kind and column pair,
`buildChartRequest` returns a ChartError — before any rendering is
delegated, since it never calls the renderer — whenever either chosen
column is absent from `numericColumns(table)` or the kind is not one of
scatter/bar/line. -/
theorem buildChartRequest_rejects (t : Table) (x y k : String)
    (h : (numericColumns t).contains x = false ∨
         (numericColumns t).contains y = false ∨
         validKind k = false) :
    chartReqIsError (buildChartRequest t x y k) = true := by
  rcases h with hx | hy | hk
  · have hx' : x ∉ numericColumns t := by simpa using hx
    simp [buildChartRequest, hx', chartReqIsError]
  · have hy' : y ∉ numericColumns t := by simpa using hy
    by_cases hx' : x ∈ numericColumns t <;>
      simp [buildChartRequest, hx', hy', chartReqIsError]
  · have hk' : (¬k = "scatter" ∧ ¬k = "bar") ∧ ¬k = "line" := by
      unfold validKind at hk
      simpa [Bool.or_eq_false_iff] using hk
    by_cases hx' : x ∈ numericColumns t <;>
      by_cases hy' : y ∈ numericColumns t <;>
        simp [buildChartRequest, hx', hy', hk'.1.1, hk'.1.2, hk'.2,
          chartReqIsError]

/-- Witness for C8 at a zero-row table (so its numeric set is empty) and
the scatter kind. -/
theorem buildChartRequest_rejects_witness :
    ((numericColumns chartSampleTable).contains "a" = false ∨
     (numericColumns chartSampleTable).contains "a" = false ∨
     validKind "scatter" = false) ∧
    chartReqIsError
      (buildChartRequest chartSampleTable "a" "a" "scatter") = true :=
  ⟨Or.inl (by decide),
    buildChartRequest_rejects chartSampleTable "a" "a" "scatter"
      (Or.inl (by decide))⟩

end CrimeSync
